import Mathlib

/-!
# Verification of the DAAgent session orchestration engine

Shallow embedding of the session orchestration core of the DAAgent
repository (`src/app/agents/orchestrator.py`, `src/app/utils/*.py`),
together with theorems settling the specification claims about it.

Python dictionaries are modelled as insertion-ordered association lists
(`List (String × V)`), matching CPython's ordered-dict semantics.
External model-backed capabilities (planner agent, database query agent,
synthesizer agent, summarizer agent) are modelled as pure function
parameters; called code that can raise is modelled with `Except`/`Option`.
The cooperative cancellation token (`asyncio.Event`) is modelled as a
boolean observation function polled at the same program points where the
source calls `_check_cancellation`.
-/

namespace DAAgent

/-- One entry of a session's message history.  The source stores
`pydantic_ai` messages; the orchestration code only ever constructs
`ModelRequest([UserPromptPart(c)])`, `ModelRequest([SystemPromptPart(c)])`
and `ModelResponse([TextPart(c)])`, embedded here as the three
constructors. -/
inductive ModelMessage where
  | userMsg (content : String)
  | systemMsg (content : String)
  | assistantMsg (content : String)
deriving DecidableEq

/-- `app.core.models.IntentClassification`. -/
structure IntentClassification where
  intent_type : String
  requires_clarification : Bool
  clarification_question : Option String
  reasoning : String
deriving DecidableEq

/-- `app.core.models.ExecutionPlan` (the planner's output). -/
structure ExecutionPlan where
  intent_type : String
  requires_clarification : Bool
  clarification_question : Option String
  reasoning : String
  requires_plot : Bool
  plot_type : Option String
  use_cached_data : Bool
  cached_data_key : Option String
  sql_query : Option String
  explanation : String
deriving DecidableEq

/-- `app.core.models.DatabaseResult`.  Row dictionaries are modelled with
string values (their contents never influence the orchestration logic). -/
structure DatabaseResult where
  success : Bool
  data : Option (List (List (String × String)))
  error : Option String
  row_count : Nat
deriving DecidableEq

/-- `app.core.models.QueryAgentOutput`. -/
structure QueryAgentOutput where
  sql_query : String
  query_result : DatabaseResult
  explanation : String
  requires_clarification : Bool
  clarification_question : Option String
deriving DecidableEq

/-- Metadata values stored on a response (`response.metadata` holds both
strings and booleans in the source). -/
inductive MetaVal where
  | str (s : String)
  | bool (b : Bool)
deriving DecidableEq

/-- `app.core.models.AgentResponse`.  The `confidence` and `plot_spec`
fields (floating point / chart content, produced and consumed only by
the excluded synthesizer internals) are elided. -/
structure AgentResponse where
  message : String
  requires_followup : Bool
  metadata : Option (List (String × MetaVal))
deriving DecidableEq

/-- `app.core.models.UserMessage`. -/
structure UserMessage where
  content : String
  session_id : Option String
  username : Option String
deriving DecidableEq

/-- The `pending_clarification` snapshot stored by
`ClarificationHandler.handle_clarification_request`. -/
structure PendingClarification where
  original_message : String
  intent : IntentClassification
deriving DecidableEq

/-- Per-session state dictionary of `app.utils.session_manager`:
`{"message_history": [...], "cached_query_results": {...}}`, with the
`pending_clarification` key (added dynamically by the clarification
handler) modelled as an `Option` that is `none` while the key is absent
or `None`. -/
structure SessionState where
  message_history : List ModelMessage
  cached_query_results : List (String × QueryAgentOutput)
  pending_clarification : Option PendingClarification
deriving DecidableEq

/-- The `SessionManager._session_state` map, as an insertion-ordered
association list. -/
abbrev Store := List (String × SessionState)

/-- Python `d[k] = v` on an (ordered) dict: overwrite in place if the key
exists, otherwise append. -/
def dict_insert {V : Type} (d : List (String × V)) (k : String) (v : V) :
    List (String × V) :=
  if (d.lookup k).isSome then
    d.map (fun p => if p.1 = k then (k, v) else p)
  else d ++ [(k, v)]

/-- Python slice `l[i:]` (negative `i` counts from the end, clamped). -/
def pySliceFrom {α : Type} (l : List α) (i : Int) : List α :=
  if 0 ≤ i then l.drop i.toNat else l.drop ((l.length : Int) + i).toNat

/-! ## SessionManager (`app/utils/session_manager.py`) -/

/-- `SessionManager.get_or_create_session` (lines 18-46).  Returns the
session state together with the updated store.  A brand-new session is
seeded from the optional external history (Python `message_history or []`);
an existing session takes its seed only when its own history is empty and
the seed is truthy (non-`None` and nonempty). -/
def get_or_create_session (store : Store) (session_id : String)
    (message_history : Option (List ModelMessage)) : SessionState × Store :=
  match store.lookup session_id with
  | none =>
      let st : SessionState :=
        { message_history :=
            match message_history with
            | some h => h
            | none => []
          cached_query_results := []
          pending_clarification := none }
      (st, dict_insert store session_id st)
  | some st =>
      let seedTruthy : Bool :=
        match message_history with
        | some (_ :: _) => true
        | _ => false
      if st.message_history.isEmpty && seedTruthy then
        let st1 := { st with message_history :=
          match message_history with
          | some h => h
          | none => [] }
        (st1, dict_insert store session_id st1)
      else (st, store)

/-- `SessionManager.store_query_result` (lines 74-87), restricted to an
existing session's state. -/
def store_query_result (st : SessionState) (key : String)
    (result : QueryAgentOutput) : SessionState :=
  { st with cached_query_results :=
      dict_insert st.cached_query_results key result }

/-- `SessionManager.get_query_result` (lines 89-105). -/
def get_query_result (st : SessionState) (key : String) :
    Option QueryAgentOutput :=
  st.cached_query_results.lookup key

/-- `SessionManager.get_latest_query_result` (lines 107-133): the
`"latest"` entry if present, else the most recently inserted entry. -/
def get_latest_query_result (st : SessionState) : Option QueryAgentOutput :=
  if st.cached_query_results.isEmpty then none
  else
    match st.cached_query_results.lookup "latest" with
    | some v => some v
    | none => st.cached_query_results.getLast?.map (fun p => p.2)

/-- `SessionManager.clear_old_results` (lines 135-169), as the pure cache
transformation.  `keep_count` is an integer, as in the source, where
`keep_last_n - 1` can be negative; the slice `items[-keep_count:]` uses
Python slicing semantics (`pySliceFrom`).  The `if latest:` truthiness
test is `isSome` because stored `QueryAgentOutput` objects are always
truthy. -/
def clear_old_results {V : Type} (cache : List (String × V))
    (keep_last_n : Nat) : List (String × V) :=
  if cache.length ≤ keep_last_n then cache
  else
    let latest := cache.lookup "latest"
    let items := cache.filter (fun p => p.1 != "latest")
    let keep_count : Int :=
      (keep_last_n : Int) - (if latest.isSome then 1 else 0)
    let items_to_keep :=
      if keep_count < (items.length : Int) then pySliceFrom items (-keep_count)
      else items
    (match latest with
     | some v => [("latest", v)]
     | none => ([] : List (String × V))) ++ items_to_keep

/-! ## MessageHistoryManager (`app/utils/message_history.py`) -/

def MAX_MESSAGES : Nat := 20
def KEEP_RECENT : Nat := 10

/-- The `old_messages_text` extraction of `summarize_if_needed`
(lines 45-54): user prompts and assistant texts are rendered, system
prompt parts are skipped. -/
def message_to_text : ModelMessage → List String
  | .userMsg c => ["User: " ++ c]
  | .systemMsg _ => []
  | .assistantMsg c => ["Assistant: " ++ c]

/-- `MessageHistoryManager.summarize_if_needed` (lines 25-68).  The
summarizer agent is a capability from the prompt to either a summary
string or a raised exception (`Except.error`); on exception the original
history is returned unchanged. -/
def summarize_if_needed (summarizer : String → Except Unit String)
    (messages : List ModelMessage) : List ModelMessage :=
  if messages.length ≤ MAX_MESSAGES then messages
  else
    let old_messages := messages.take (messages.length - KEEP_RECENT)
    let recent_messages := messages.drop (messages.length - KEEP_RECENT)
    let old_text :=
      String.intercalate "\n" (old_messages.map message_to_text).flatten
    let prompt :=
      "Summarize this conversation history, focusing on key points and decisions:\n\n"
        ++ old_text
    match summarizer prompt with
    | .ok summary =>
        ModelMessage.systemMsg
          ("[Previous conversation summary]: " ++ summary) :: recent_messages
    | .error _ => messages

/-- `MessageHistoryManager.add_message_to_history` (lines 127-147):
appends the optional user message, then the optional assistant message. -/
def add_message_to_history (st : SessionState)
    (user_message assistant_message : Option ModelMessage) : SessionState :=
  { st with message_history :=
      st.message_history ++ user_message.toList ++ assistant_message.toList }

/-! ## Router (`app/utils/routing.py`)

The database query agent is an external capability; successive
invocations within one turn may produce different outputs, so the
capability is indexed by the attempt number in addition to the input
message.  The (unchanged) message history threaded through every attempt
is closed over at the call site. -/

/-- `Router._build_error_context` (lines 26-42). -/
def build_error_context (error_msg failed_query : String) : String :=
  "\n\nIMPORTANT: The previous query failed with error: " ++ error_msg ++ "\n"
    ++ "Failed query: " ++ failed_query ++ "\n"
    ++ "Please analyze the error, use schema tools if needed to find the correct column/table names, "
    ++ "generate a corrected query, and execute it using the query_database tool."

/-- The retry loop body of `Router.route_to_database_query`
(lines 86-133).  `fuel` is the number of retries still allowed
(`max_retries - attempt`); when it reaches zero the current attempt is
the last one and its outcome is returned regardless of success.  The
second component of the result is the total number of capability
invocations performed. -/
def route_retry_loop (cap : Nat → String → QueryAgentOutput)
    (original_message : String) :
    Nat → Nat → String → QueryAgentOutput × Nat
  | 0, attempt, user_message => (cap attempt user_message, attempt + 1)
  | fuel + 1, attempt, user_message =>
      let agent_output := cap attempt user_message
      if agent_output.query_result.success then (agent_output, attempt + 1)
      else
        let error_msg :=
          match agent_output.query_result.error with
          | some e => e
          | none => "Unknown error"
        route_retry_loop cap original_message fuel (attempt + 1)
          (original_message
            ++ build_error_context error_msg agent_output.sql_query)

/-- `Router.route_to_database_query` (lines 65-133): up to
`max_retries + 1` attempts, retry input built from the *original*
message plus the latest error context, last outcome returned on
exhaustion.  `self.max_retries` is 2 in the source (`routing.py` line
24); it is a parameter here, instantiated with 2 by the callers. -/
def route_to_database_query (cap : Nat → String → QueryAgentOutput)
    (max_retries : Nat) (user_message : String) : QueryAgentOutput × Nat :=
  route_retry_loop cap user_message max_retries 0 user_message

/-! ## ClarificationHandler (`app/utils/clarification_handler.py`) -/

/-- Python `s or default` on an optional string: `None` and the empty
string are falsy. -/
def str_or_default (s : Option String) (default : String) : String :=
  match s with
  | some t => if t = "" then default else t
  | none => default

/-- `ClarificationHandler.handle_clarification_request` (lines 64-106):
stores the pending-clarification snapshot, appends the user turn and the
clarification-question turn, and returns the follow-up-required
response. -/
def handle_clarification_request (user_input : UserMessage)
    (intent : IntentClassification) (session_id : String)
    (st : SessionState) : AgentResponse × SessionState :=
  let pending : PendingClarification :=
    { original_message := user_input.content, intent := intent }
  let st1 := { st with pending_clarification := some pending }
  let clarification_message :=
    str_or_default intent.clarification_question
      "Could you please clarify your question?"
  let st2 := add_message_to_history st1
    (some (ModelMessage.userMsg user_input.content))
    (some (ModelMessage.assistantMsg clarification_message))
  let response : AgentResponse :=
    { message := clarification_message
      requires_followup := true
      metadata := some
        [("intent_type", MetaVal.str intent.intent_type),
         ("requires_clarification", MetaVal.bool true),
         ("session_id", MetaVal.str session_id)] }
  (response, st2)

/-- `ClarificationHandler.handle_clarification_response` (lines 33-62):
appends the raw user turn, builds the combined input from the stored
original message, and clears the pending clarification.  The source
subscripts `session_state["pending_clarification"]` unconditionally and
would raise when it is absent; that path is `none` here. -/
def handle_clarification_response (user_input : UserMessage)
    (st : SessionState) :
    Option (String × IntentClassification × SessionState) :=
  match st.pending_clarification with
  | none => none
  | some pending =>
      let st1 := add_message_to_history st
        (some (ModelMessage.userMsg user_input.content)) none
      let combined_message :=
        pending.original_message ++ "\n\n[Clarification response]: "
          ++ user_input.content
      let st2 := { st1 with pending_clarification := none }
      some (combined_message, pending.intent, st2)

/-! ## OrchestratorAgent (`app/agents/orchestrator.py`)

The external capabilities consumed by one `chat` turn.  `planner` is
`PlannerAgent.run` (returning an `ExecutionPlan` or a clarification
string), `query_agent` is `DatabaseQueryAgent.run` indexed by attempt
number, `synthesizer` abstracts `_synthesize_response` (context
formatting plus `SynthesizerAgent.run`), `summarizer` is the summarizer
agent, and `derive_key` abstracts the md5-hash-plus-timestamp cache key
built at `orchestrator.py` lines 393-397 from the executed SQL. -/

/-- Result of the planner capability: `Union[str, ExecutionPlan]`. -/
inductive PlanOrClarification where
  | plan (p : ExecutionPlan)
  | clarification (question : String)

structure Capabilities where
  planner : String → List ModelMessage → PlanOrClarification
  query_agent : Nat → String → List ModelMessage → QueryAgentOutput
  synthesizer : String → List ModelMessage → ExecutionPlan →
    Option QueryAgentOutput → AgentResponse
  summarizer : String → Except Unit String
  derive_key : String → String

/-- `SessionManager.clear_old_results` applied to a session's cache
field (`session_state["cached_query_results"]`). -/
def clear_old_results_in (st : SessionState) (keep_last_n : Nat) :
    SessionState :=
  { st with cached_query_results :=
      clear_old_results st.cached_query_results keep_last_n }

/-- `OrchestratorAgent._prepare_session_and_history` (lines 248-284):
get-or-create the session, compact its history if needed, and write the
(possibly compacted) history back into the session state. -/
def prepare_session_and_history (summarizer : String → Except Unit String)
    (store : Store) (session_id : String)
    (message_history : Option (List ModelMessage)) : SessionState × Store :=
  let (st, store1) := get_or_create_session store session_id message_history
  let current := summarize_if_needed summarizer st.message_history
  let st1 := { st with message_history := current }
  (st1, dict_insert store1 session_id st1)

/-- Result of `_execute_plan`, with the bookkeeping a caller of the
embedded pipeline observes: whether a `CancelledError` propagated, the
agent output, the plan object after execution (the source mutates
`plan.use_cached_data` in place at line 375), the session state, the
number of database-query-agent invocations, and the index of the next
cancellation poll. -/
structure ExecutePlanResult where
  cancelled : Bool
  agent_output : Option QueryAgentOutput
  plan : ExecutionPlan
  st : SessionState
  fetch_calls : Nat
  next_poll : Nat
deriving DecidableEq

/-- The fresh-fetch branch of `_execute_plan` (lines 377-406): poll
(line 379), router call, poll (line 388), then on success store the
outcome under the derived key and under `"latest"` and evict keeping the
last 5.  `plan1` is the plan object after any cache-miss fallback
mutation. -/
def execute_fresh_fetch (caps : Capabilities) (tok : Nat → Bool) (t : Nat)
    (plan1 : ExecutionPlan) (user_message_content : String)
    (st : SessionState) (current_message_history : List ModelMessage) :
    ExecutePlanResult :=
  if tok (t + 1) then ⟨true, none, plan1, st, 0, t + 2⟩        -- line 379
  else
    let (agent_output, n) := route_to_database_query
      (fun i m => caps.query_agent i m current_message_history) 2
      user_message_content
    if tok (t + 2) then                                        -- line 388
      ⟨true, some agent_output, plan1, st, n, t + 3⟩
    else
      let st1 :=
        if agent_output.query_result.success then
          let cache_key := caps.derive_key agent_output.sql_query
          clear_old_results_in
            (store_query_result
              (store_query_result st cache_key agent_output)
              "latest" agent_output) 5
        else st
      ⟨false, some agent_output, plan1, st1, n, t + 3⟩

/-- `OrchestratorAgent._execute_plan` (lines 325-408).  `tok k` is the
value the cancellation event shows at the `k`-th `_check_cancellation`
poll of the turn (polls are numbered in execution order across the whole
`chat` call); `t` is the index of this stage's first poll (line 347).
The fresh-fetch branch polls again before (line 379) and after (line
388) the router call; the router itself performs no cancellation
checks. -/
def execute_plan (caps : Capabilities) (tok : Nat → Bool) (t : Nat)
    (plan : ExecutionPlan) (user_message_content : String)
    (st : SessionState) (current_message_history : List ModelMessage) :
    ExecutePlanResult :=
  if tok t then ⟨true, none, plan, st, 0, t + 1⟩   -- line 347
  else
    let needs_data := plan.intent_type = "database_query" ∨
      (plan.intent_type = "general_question" ∧ plan.requires_plot = true)
    if ¬needs_data then ⟨false, none, plan, st, 0, t + 1⟩
    else
      let cached : Option QueryAgentOutput :=
        if plan.use_cached_data then
          match plan.cached_data_key with
          | some key => get_query_result st key
          | none => get_latest_query_result st
        else none
      match cached with
      | some agent_output =>
          ⟨false, some agent_output, plan, st, 0, t + 1⟩
      | none =>
          -- on a cache miss the source falls back and mutates the plan
          -- (line 375); when use_cached_data was already false the plan
          -- is unchanged
          let plan1 :=
            if plan.use_cached_data then
              { plan with use_cached_data := false }
            else plan
          execute_fresh_fetch caps tok t plan1 user_message_content st
            current_message_history

/-- `OrchestratorAgent._finalize_response` (lines 410-459): synthesize,
append the assistant turn, and attach turn metadata. -/
def finalize_response (caps : Capabilities)
    (user_message_content : String)
    (agent_output : Option QueryAgentOutput) (plan : ExecutionPlan)
    (session_id : String) (st : SessionState)
    (current_message_history : List ModelMessage) :
    AgentResponse × SessionState :=
  let response := caps.synthesizer user_message_content
    current_message_history plan agent_output
  let st1 := add_message_to_history st none
    (some (ModelMessage.assistantMsg response.message))
  let md0 :=
    match response.metadata with
    | some m => m
    | none => []
  let md1 := dict_insert md0 "intent_type" (MetaVal.str plan.intent_type)
  let md2 := dict_insert md1 "requires_database"
    (MetaVal.bool (plan.intent_type == "database_query"))
  let md3 := dict_insert md2 "session_id" (MetaVal.str session_id)
  ({ response with metadata := some md3 }, st1)

/-- What one `OrchestratorAgent.chat` call produces in the embedding:
`response = none` models a propagated `CancelledError`; `fetch_calls`
counts database-query-agent invocations; `planner_input` records the
text handed to the planning stage once the planner has been invoked. -/
structure ChatOutcome where
  response : Option AgentResponse
  store : Store
  fetch_calls : Nat
  planner_input : Option String
deriving DecidableEq

/-- The session id used by `chat`:
`user_input.session_id or "default"` (`orchestrator.py` line 265). -/
def the_session_id (user_input : UserMessage) : String :=
  match user_input.session_id with
  | some s => s
  | none => "default"

/-- `OrchestratorAgent.chat` (lines 466-571).  Cancellation polls are
numbered in execution order: 0 = line 494, 1 = line 502, 2 = line 306,
3 = line 177, 4 = line 188 (after the planner), 5 = line 317,
6 = line 520, 7 = line 347 (start of `_execute_plan`), 8 = line 379,
9 = line 388, then line 544 and line 560 at the indices reported by
`_execute_plan`.  Session-state mutations made before a poll that
observes the set token persist, exactly as in-place dict mutation
survives a raised `CancelledError` in the source. -/
def chat (caps : Capabilities) (tok : Nat → Bool) (store : Store)
    (user_input : UserMessage)
    (message_history : Option (List ModelMessage)) : ChatOutcome :=
  if tok 0 then ⟨none, store, 0, none⟩                        -- line 494
  else
    let session_id := the_session_id user_input
    let (st1, store1) := prepare_session_and_history caps.summarizer
      store session_id message_history
    if tok 1 then ⟨none, store1, 0, none⟩                     -- line 502
    else
      -- line 508: append the user message BEFORE running the planner
      let st2 := add_message_to_history st1
        (some (ModelMessage.userMsg user_input.content)) none
      let store2 := dict_insert store1 session_id st2
      let current_message_history := st2.message_history
      if tok 2 then ⟨none, store2, 0, none⟩                   -- line 306
      else if tok 3 then ⟨none, store2, 0, none⟩              -- line 177
      else
        let plan_or_clarification :=
          caps.planner user_input.content current_message_history
        if tok 4 then ⟨none, store2, 0, some user_input.content⟩  -- line 188
        else if tok 5 then ⟨none, store2, 0, some user_input.content⟩
        else if tok 6 then ⟨none, store2, 0, some user_input.content⟩
        else
          match plan_or_clarification with
          | .clarification question =>                        -- lines 523-533
              let intent_classification : IntentClassification :=
                { intent_type := "database_query"
                  requires_clarification := true
                  clarification_question := some question
                  reasoning := "User question requires clarification before execution plan can be created." }
              let (response, st3) := handle_clarification_request user_input
                intent_classification session_id st2
              ⟨some response, dict_insert store2 session_id st3, 0,
                some user_input.content⟩
          | .plan plan =>
              let er := execute_plan caps tok 7 plan user_input.content st2
                current_message_history
              let store3 := dict_insert store2 session_id er.st
              if er.cancelled then
                ⟨none, store3, er.fetch_calls, some user_input.content⟩
              else if tok er.next_poll then                   -- line 544
                ⟨none, store3, er.fetch_calls, some user_input.content⟩
              else
                let requires_clar :=
                  match er.agent_output with
                  | some out => out.requires_clarification
                  | none => false
                if requires_clar then                         -- lines 547-557
                  let out := er.agent_output.getD
                    ⟨"", ⟨false, none, none, 0⟩, "", false, none⟩
                  let intent_classification : IntentClassification :=
                    { intent_type := er.plan.intent_type
                      requires_clarification := true
                      clarification_question := some (str_or_default
                        out.clarification_question
                        "Could you please clarify which column you meant?")
                      reasoning := "Database query failed after retries. "
                        ++ out.explanation }
                  let (response, st4) := handle_clarification_request
                    user_input intent_classification session_id er.st
                  ⟨some response, dict_insert store3 session_id st4,
                    er.fetch_calls, some user_input.content⟩
                else if tok (er.next_poll + 1) then           -- line 560
                  ⟨none, store3, er.fetch_calls, some user_input.content⟩
                else
                  let (response, st4) := finalize_response caps
                    user_input.content er.agent_output er.plan session_id
                    er.st current_message_history
                  ⟨some response, dict_insert store3 session_id st4,
                    er.fetch_calls, some user_input.content⟩

/-! ## Timed view of the fetch stage (for the cancellation claims)

The cancellation event is set by a concurrent caller at some real
moment.  To reason about *when* it is set relative to the fetch
attempts, the fresh-fetch part of `_execute_plan` (lines 377-406) is
given an explicit timeline: tick 0 is the poll at line 379, tick `i + 1`
is the start of the `i`-th database-query-agent invocation, and the poll
at line 388 happens at tick `attempts + 1`.  `token_set_from = some s`
means the event becomes (and stays) set at tick `s`. -/

def token_is_set (token_set_from : Option Nat) (t : Nat) : Bool :=
  match token_set_from with
  | some s => decide (s ≤ t)
  | none => false

/-- Timed record of the fresh-fetch branch of `_execute_plan`:
which attempts started (by start tick), the outcome of the router call
if it ran, and whether a `CancelledError` was raised at one of the two
polls that the source performs around the router call. -/
structure FetchStageResult where
  cancelled : Bool
  outcome : Option QueryAgentOutput
  attempts_started : List Nat
deriving DecidableEq

/-- The fresh-fetch branch of `_execute_plan` (lines 377-388) on the
explicit timeline.  The router (`route_to_database_query`) contains no
cancellation polls, so between the poll at tick 0 and the poll after the
router returns, the token is never read. -/
def fetch_stage_timed (cap : Nat → String → QueryAgentOutput)
    (max_retries : Nat) (token_set_from : Option Nat)
    (user_message : String) : FetchStageResult :=
  if token_is_set token_set_from 0 then ⟨true, none, []⟩      -- line 379
  else
    let (outcome, n) := route_to_database_query cap max_retries user_message
    let attempts_started := (List.range n).map (fun i => i + 1)
    if token_is_set token_set_from (n + 1) then               -- line 388
      ⟨true, some outcome, attempts_started⟩
    else ⟨false, some outcome, attempts_started⟩

/-! ## Operations that touch a session's message history (for the
history-monotonicity claim).  Every history-touching operation of the
pipeline other than compaction (`summarize_if_needed`) and explicit
reset, as an op language over one session's state. -/

inductive HistOp where
  | add_message (u a : Option ModelMessage)
  | clarification_request (user_input : UserMessage)
      (intent : IntentClassification) (session_id : String)
  | clarification_response (user_input : UserMessage)
  | seed_merge (seed : Option (List ModelMessage))
  | store_result (key : String) (out : QueryAgentOutput)
  | evict (keep_last_n : Nat)

/-- Apply one history-touching operation to a session's state.
`seed_merge` is `get_or_create_session` called on the existing session
with an externally supplied seed history. -/
def apply_hist_op (st : SessionState) : HistOp → SessionState
  | .add_message u a => add_message_to_history st u a
  | .clarification_request ui ic sid =>
      (handle_clarification_request ui ic sid st).2
  | .clarification_response ui =>
      match handle_clarification_response ui st with
      | some r => r.2.2
      | none => st
  | .seed_merge seed => (get_or_create_session [("s", st)] "s" seed).1
  | .store_result k out => store_query_result st k out
  | .evict n => clear_old_results_in st n

/-! # Theorems -/

/-! ## Shared helper lemmas -/

lemma lookup_map_overwrite {V : Type} (t : List (String × V)) (k : String)
    (v : V) (h : (t.lookup k).isSome = true) :
    List.lookup k (t.map (fun p => if p.1 = k then (k, v) else p))
      = some v := by
  induction t with
  | nil => simp at h
  | cons a t ih =>
    obtain ⟨ak, av⟩ := a
    by_cases hk : ak = k
    · subst hk
      have hhead : (if (ak, av).1 = ak then (ak, v) else (ak, av))
          = (ak, v) := if_pos rfl
      rw [List.map_cons, hhead]
      simp [List.lookup]
    · have hne : (k == ak) = false := by
        simp only [beq_eq_false_iff_ne, ne_eq]
        exact fun he => hk he.symm
      have hhead : (if (ak, av).1 = k then (k, v) else (ak, av))
          = (ak, av) := if_neg hk
      rw [List.map_cons, hhead]
      simp only [List.lookup, hne]
      exact ih (by simpa [List.lookup, hne] using h)

lemma lookup_append_absent {V : Type} (t : List (String × V)) (k : String)
    (v : V) (h : t.lookup k = none) :
    List.lookup k (t ++ [(k, v)]) = some v := by
  induction t with
  | nil => simp [List.lookup]
  | cons a t ih =>
    obtain ⟨ak, av⟩ := a
    cases hb : (k == ak) with
    | true => simp [List.lookup, hb] at h
    | false =>
      simp only [List.cons_append, List.lookup, hb]
      exact ih (by simpa [List.lookup, hb] using h)

lemma lookup_dict_insert {V : Type} (d : List (String × V)) (k : String)
    (v : V) : (dict_insert d k v).lookup k = some v := by
  unfold dict_insert
  split
  · rename_i h
    exact lookup_map_overwrite d k v h
  · rename_i h
    refine lookup_append_absent d k v ?_
    cases hl : d.lookup k with
    | none => rfl
    | some w => rw [hl] at h; simp at h

lemma filter_ne_latest_of_lookup_none {V : Type} (c : List (String × V))
    (h : c.lookup "latest" = none) :
    c.filter (fun p => p.1 != "latest") = c := by
  induction c with
  | nil => rfl
  | cons a t ih =>
    rw [List.lookup] at h
    cases hb : (("latest" : String) == a.1) with
    | true => rw [hb] at h; simp at h
    | false =>
      rw [hb] at h
      have ha : (a.1 != "latest") = true := by
        simp only [bne_iff_ne, ne_eq]
        intro he
        rw [he] at hb
        simp at hb
      rw [List.filter_cons, if_pos ha, ih h]

/-! ## C4 — retry budget of the fetch executor -/

lemma route_retry_loop_always_fails (cap : Nat → String → QueryAgentOutput)
    (original : String)
    (hfail : ∀ i m, (cap i m).query_result.success = false) :
    ∀ fuel attempt msg, ∃ final,
      route_retry_loop cap original fuel attempt msg =
        (cap (attempt + fuel) final, attempt + fuel + 1) := by
  intro fuel
  induction fuel with
  | zero => intro attempt msg; exact ⟨msg, by simp [route_retry_loop]⟩
  | succ fuel ih =>
    intro attempt msg
    obtain ⟨final, hrec⟩ := ih (attempt + 1)
      (original ++ build_error_context
        (match (cap attempt msg).query_result.error with
         | some e => e
         | none => "Unknown error") (cap attempt msg).sql_query)
    refine ⟨final, ?_⟩
    rw [route_retry_loop]
    simp only [hfail, Bool.false_eq_true, if_false, hrec]
    rw [show attempt + 1 + fuel = attempt + (fuel + 1) from by omega]

/-- C4: if the fetch capability fails on every invocation, the retrying
fetch executor invokes it exactly `max_retries + 1` times (3 with the
default `max_retries = 2`) and returns the outcome of the final
invocation (so its error text is that of the final attempt), without
raising. -/
theorem router_retry_budget (cap : Nat → String → QueryAgentOutput)
    (max_retries : Nat) (user_message : String)
    (hfail : ∀ i m, (cap i m).query_result.success = false) :
    (route_to_database_query cap max_retries user_message).2 =
      max_retries + 1 ∧
    ∃ final_input,
      route_to_database_query cap max_retries user_message =
        (cap max_retries final_input, max_retries + 1) := by
  obtain ⟨final, h⟩ :=
    route_retry_loop_always_fails cap user_message hfail max_retries 0
      user_message
  rw [route_to_database_query]
  rw [Nat.zero_add] at h
  exact ⟨by rw [h], final, h⟩

/-- A concrete always-failing query-agent output. -/
def failing_output : QueryAgentOutput :=
  { sql_query := "SELECT petal FROM iris"
    query_result :=
      { success := false, data := none
        error := some "no such column: petal", row_count := 0 }
    explanation := "lookup petal"
    requires_clarification := false
    clarification_question := none }

theorem router_retry_budget_witness :
    (route_to_database_query (fun _ _ => failing_output) 2 "list petals").2
      = 3 :=
  (router_retry_budget (fun _ _ => failing_output) 2 "list petals"
    (fun _ _ => rfl)).1

/-! ## C5 — cancellation and the retry attempts -/

/-- C5 counterexample: the claim says the token is checked before each
attempt and a token set before an attempt prevents it.  With an
always-failing capability and the token becoming set at tick 2 (the
start of the second attempt), the second and third attempts still start,
because `route_to_database_query` contains no cancellation polls at
all — only the polls before and after the whole router call exist. -/
theorem fetch_cancel_between_attempts_cex :
    token_is_set (some 2) 2 = true ∧
    (fetch_stage_timed (fun _ _ => failing_output) 2 (some 2)
        "list petals").attempts_started = [1, 2, 3] ∧
    2 ∈ (fetch_stage_timed (fun _ _ => failing_output) 2 (some 2)
        "list petals").attempts_started ∧
    3 ∈ (fetch_stage_timed (fun _ _ => failing_output) 2 (some 2)
        "list petals").attempts_started := by
  decide

/-- C5 amended: the fetch stage polls the token only before the router
call (tick 0) and after it returns; a token that is already set at tick
0 prevents every attempt, but a token set at any later tick has no
effect on which attempts start — they are exactly the attempts the
router performs. -/
theorem fetch_stage_attempts_independent_of_token
    (cap : Nat → String → QueryAgentOutput) (max_retries : Nat)
    (token_set_from : Option Nat) (user_message : String) :
    (fetch_stage_timed cap max_retries token_set_from
        user_message).attempts_started =
      if token_is_set token_set_from 0 then []
      else (List.range
          (route_to_database_query cap max_retries user_message).2).map
        (fun i => i + 1) := by
  unfold fetch_stage_timed
  split
  · rfl
  · rcases hr : route_to_database_query cap max_retries user_message with
      ⟨outcome, n⟩
    simp only [hr]
    split <;> rfl

/-! ## C6 and C7 — history compaction -/

/-- C6: with a succeeding summarization capability, a 25-turn history is
compacted to exactly 11 turns — one synthetic summary turn followed by
the last 10 original turns unchanged — and any history of length at most
`MAX_MESSAGES` is returned unchanged. -/
theorem summarize_compaction_spec (messages : List ModelMessage)
    (s : String) (h25 : messages.length = 25) :
    summarize_if_needed (fun _ => Except.ok s) messages =
      ModelMessage.systemMsg ("[Previous conversation summary]: " ++ s)
        :: messages.drop 15 ∧
    (summarize_if_needed (fun _ => Except.ok s) messages).length = 11 ∧
    (summarize_if_needed (fun _ => Except.ok s) messages).drop 1 =
      messages.drop 15 ∧
    ∀ (cap : String → Except Unit String) (l : List ModelMessage),
      l.length ≤ MAX_MESSAGES → summarize_if_needed cap l = l := by
  have hgt : ¬(messages.length ≤ MAX_MESSAGES) := by
    rw [h25, MAX_MESSAGES]; omega
  have heq : summarize_if_needed (fun _ => Except.ok s) messages =
      ModelMessage.systemMsg ("[Previous conversation summary]: " ++ s)
        :: messages.drop 15 := by
    rw [summarize_if_needed, if_neg hgt]
    rw [h25]
    rfl
  refine ⟨heq, ?_, ?_, ?_⟩
  · rw [heq]
    simp [List.length_drop, h25]
  · rw [heq]
    rfl
  · intro cap l hl
    rw [summarize_if_needed, if_pos hl]

theorem summarize_compaction_spec_witness :
    (summarize_if_needed (fun _ => Except.ok "the user asked about iris")
        (List.replicate 25 (ModelMessage.userMsg "hi"))).length = 11 :=
  (summarize_compaction_spec (List.replicate 25 (ModelMessage.userMsg "hi"))
    "the user asked about iris" (by simp)).2.1

/-- C7: if the summarization capability raises on every prompt,
compaction returns the original history unchanged; being a total
function of the embedding, it never raises. -/
theorem summarize_failure_returns_original
    (summarizer : String → Except Unit String)
    (messages : List ModelMessage)
    (hraise : ∀ p, summarizer p = Except.error ()) :
    summarize_if_needed summarizer messages = messages := by
  rw [summarize_if_needed]
  split
  · rfl
  · simp only [hraise]

theorem summarize_failure_returns_original_witness :
    summarize_if_needed (fun _ => Except.error ())
        (List.replicate 25 (ModelMessage.userMsg "hi")) =
      List.replicate 25 (ModelMessage.userMsg "hi") :=
  summarize_failure_returns_original (fun _ => Except.error ())
    (List.replicate 25 (ModelMessage.userMsg "hi")) (fun _ => rfl)

/-! ## C8 — idempotence of cache eviction -/

/-- C8 counterexample: with `keep_last_n = 0` and a cache holding
`"latest"` plus two other entries, `keep_count` is `-1` and the slice
`items[-keep_count:]` is `items[1:]`, which drops one further entry on
every application: one application keeps `{"latest", "b"}`, a second
drops `"b"` as well, so eviction is not idempotent for every `n`. -/
theorem clear_old_results_not_idempotent_cex :
    clear_old_results [("latest", 0), ("a", 1), ("b", 2)] 0
      = [("latest", 0), ("b", 2)] ∧
    clear_old_results
        (clear_old_results [("latest", 0), ("a", 1), ("b", 2)] 0) 0
      = [("latest", 0)] ∧
    clear_old_results
        (clear_old_results [("latest", 0), ("a", 1), ("b", 2)] 0) 0
      ≠ clear_old_results [("latest", 0), ("a", 1), ("b", 2)] 0 := by
  decide

lemma clear_old_eq_of_latest {V : Type} (c : List (String × V)) (n : Nat)
    (v : V) (hlen : ¬c.length ≤ n) (hl : c.lookup "latest" = some v) :
    clear_old_results c n =
      ("latest", v) ::
        (if (n : Int) - 1 <
            ((c.filter (fun p => p.1 != "latest")).length : Int)
         then pySliceFrom (c.filter (fun p => p.1 != "latest"))
           (-((n : Int) - 1))
         else c.filter (fun p => p.1 != "latest")) := by
  rw [clear_old_results, if_neg hlen]
  simp only [hl, Option.isSome_some, if_true, List.singleton_append]

/-- C8 amended: eviction is idempotent for every `n ≥ 1` (the only
value the pipeline uses is `n = 5`); idempotence fails only at `n = 0`
with a `"latest"` entry present alongside at least two other entries. -/
theorem clear_old_results_idempotent {V : Type}
    (cache : List (String × V)) (n : Nat) (hn : 1 ≤ n) :
    clear_old_results (clear_old_results cache n) n
      = clear_old_results cache n := by
  by_cases hlen : cache.length ≤ n
  · have h1 : clear_old_results cache n = cache := by
      rw [clear_old_results, if_pos hlen]
    rw [h1, h1]
  · cases hl : cache.lookup "latest" with
    | none =>
      have hfil := filter_ne_latest_of_lookup_none cache hl
      have h1 : clear_old_results cache n
          = cache.drop (cache.length - n) := by
        rw [clear_old_results, if_neg hlen]
        simp only [hl, hfil, Option.isSome_none, Bool.false_eq_true,
          if_false]
        have hg : (n : Int) - 0 < (cache.length : Int) := by omega
        rw [if_pos hg, pySliceFrom,
          if_neg (by omega : ¬(0 : Int) ≤ -((n : Int) - 0))]
        simp only [List.nil_append]
        congr 1
        omega
      have h2 : (cache.drop (cache.length - n)).length ≤ n := by
        rw [List.length_drop]
        omega
      rw [h1, clear_old_results, if_pos h2]
    | some v =>
      have hfilfil :
          (cache.filter (fun p => p.1 != "latest")).filter
            (fun p => p.1 != "latest")
          = cache.filter (fun p => p.1 != "latest") := by
        rw [List.filter_filter]
        simp only [Bool.and_self]
      have h1 := clear_old_eq_of_latest cache n v hlen hl
      by_cases hn1 : n = 1
      · subst hn1
        by_cases hm0 : (cache.filter (fun p => p.1 != "latest")).length = 0
        · have hg : ¬((1 : Nat) : Int) - 1 <
              (((cache.filter (fun p => p.1 != "latest")).length : Nat) :
                Int) := by omega
          have hnil : cache.filter (fun p => p.1 != "latest") = [] :=
            List.length_eq_zero.mp hm0
          rw [h1, if_neg hg, hnil]
          rw [clear_old_results, if_pos (by simp)]
        · have hg : ((1 : Nat) : Int) - 1 <
              (((cache.filter (fun p => p.1 != "latest")).length : Nat) :
                Int) := by omega
          rw [h1, if_pos hg, pySliceFrom,
            if_pos (by omega : (0 : Int) ≤ -(((1 : Nat) : Int) - 1))]
          have hdz : (-(((1 : Nat) : Int) - 1)).toNat = 0 := by omega
          rw [hdz, List.drop_zero]
          rw [clear_old_results,
            if_neg (by rw [List.length_cons]; omega)]
          have hlook : List.lookup "latest"
              (("latest", v) :: cache.filter (fun p => p.1 != "latest"))
              = some v := by
            simp [List.lookup]
          have hfcons : (("latest", v) ::
                cache.filter (fun p => p.1 != "latest")).filter
                (fun p => p.1 != "latest")
              = cache.filter (fun p => p.1 != "latest") := by
            rw [List.filter_cons]
            simp only [bne_self_eq_false, Bool.false_eq_true, if_false,
              hfilfil]
          simp only [hlook, hfcons, Option.isSome_some, if_true,
            List.singleton_append]
          rw [if_pos (by omega : ((1 : Nat) : Int) - 1 <
            (((cache.filter (fun p => p.1 != "latest")).length : Nat) :
              Int))]
          rw [pySliceFrom,
            if_pos (by omega : (0 : Int) ≤ -(((1 : Nat) : Int) - 1))]
          rw [hdz, List.drop_zero]
      · have hn2 : 2 ≤ n := by omega
        have hkeep : (if (n : Int) - 1 <
              ((cache.filter (fun p => p.1 != "latest")).length : Int)
            then pySliceFrom (cache.filter (fun p => p.1 != "latest"))
              (-((n : Int) - 1))
            else cache.filter (fun p => p.1 != "latest")).length
            ≤ n - 1 := by
          split
          · rename_i hg
            rw [pySliceFrom, if_neg (by omega)]
            rw [List.length_drop]
            omega
          · rename_i hg
            omega
        rw [h1, clear_old_results,
          if_pos (by rw [List.length_cons]; omega)]

theorem clear_old_results_idempotent_witness :
    clear_old_results
        (clear_old_results
          [("latest", 0), ("a", 1), ("b", 2), ("c", 3), ("d", 4),
           ("e", 5), ("f", 6)] 5) 5
      = clear_old_results
          [("latest", 0), ("a", 1), ("b", 2), ("c", 3), ("d", 4),
           ("e", 5), ("f", 6)] 5 :=
  clear_old_results_idempotent
    [("latest", 0), ("a", 1), ("b", 2), ("c", 3), ("d", 4),
     ("e", 5), ("f", 6)] 5 (by decide)

/-! ## C9 — (im)mutability of the plan during execution -/

/-- A plan the planner could produce: reuse cached data under key
`"latest"` for a data query. -/
def plan_cached : ExecutionPlan :=
  { intent_type := "database_query"
    requires_clarification := false
    clarification_question := none
    reasoning := "question refers to the previous result"
    requires_plot := false
    plot_type := none
    use_cached_data := true
    cached_data_key := some "latest"
    sql_query := none
    explanation := "reuse the cached rows" }

/-- Trivial concrete capabilities for closed evaluations. -/
def caps_trivial : Capabilities :=
  { planner := fun _ _ => PlanOrClarification.plan plan_cached
    query_agent := fun _ _ _ => failing_output
    synthesizer := fun _ _ _ _ =>
      { message := "done", requires_followup := false, metadata := none }
    summarizer := fun _ => Except.ok "summary"
    derive_key := fun s => "k_" ++ s }

/-- C9 counterexample: executing a plan that asks for cached data
against a session with an empty cache falls back to a fresh fetch and
mutates the plan in place (`orchestrator.py` line 375): the plan after
execution differs from the plan the planner produced in its
`use_cached_data` field. -/
theorem execute_plan_mutates_plan_cex :
    (execute_plan caps_trivial (fun _ => false) 7 plan_cached
        "show it again" ⟨[], [], none⟩ []).plan ≠ plan_cached ∧
    (execute_plan caps_trivial (fun _ => false) 7 plan_cached
        "show it again" ⟨[], [], none⟩ []).plan
      = { plan_cached with use_cached_data := false } := by
  decide

/-- C9 amended: execution leaves every field of the plan unchanged
except that, on a cache miss with `use_cached_data = true`, the fallback
sets `use_cached_data` to `false`; no other mutation is possible. -/
theorem execute_plan_plan_mutation_bound (caps : Capabilities)
    (tok : Nat → Bool) (t : Nat) (plan : ExecutionPlan)
    (user_message_content : String) (st : SessionState)
    (current_message_history : List ModelMessage) :
    (execute_plan caps tok t plan user_message_content st
        current_message_history).plan = plan ∨
    (plan.use_cached_data = true ∧
     (execute_plan caps tok t plan user_message_content st
        current_message_history).plan
       = { plan with use_cached_data := false }) := by
  have hfresh : ∀ p1, (execute_fresh_fetch caps tok t p1
      user_message_content st current_message_history).plan = p1 := by
    intro p1
    unfold execute_fresh_fetch
    split
    · rfl
    rcases hr : route_to_database_query
        (fun i m => caps.query_agent i m current_message_history) 2
        user_message_content with ⟨out, cnt⟩
    simp only [hr]
    split
    · rfl
    · rfl
  by_cases hu : plan.use_cached_data = true
  · simp only [execute_plan, hu, if_true]
    split
    · exact Or.inl rfl
    split
    · exact Or.inl rfl
    split
    · exact Or.inl rfl
    · exact Or.inr ⟨by simp [hu], by rw [hfresh]⟩
  · have hu' : plan.use_cached_data = false := by
      cases h : plan.use_cached_data
      · rfl
      · exact absurd h hu
    simp only [execute_plan, hu', Bool.false_eq_true, if_false]
    split
    · exact Or.inl rfl
    split
    · exact Or.inl rfl
    exact Or.inl (hfresh plan)

/-! ## C3 — history length monotonicity -/

/-- C3 counterexample: a session whose history holds 25 turns.  After
the pipeline's session-preparation step (which compacts the history),
`get_or_create_session` for the same id returns a history of length 11,
strictly shorter than the 25 it returned before — history length
shrinks without any reset. -/
theorem history_shrinks_on_compaction_cex :
    (get_or_create_session
        [("s", ⟨List.replicate 25 (ModelMessage.userMsg "hi"), [], none⟩)]
        "s" none).1.message_history.length = 25 ∧
    (get_or_create_session
        (prepare_session_and_history (fun _ => Except.ok "sum")
          [("s", ⟨List.replicate 25 (ModelMessage.userMsg "hi"), [], none⟩)]
          "s" none).2
        "s" none).1.message_history.length = 11 ∧
    (11 : Nat) < 25 := by
  decide

lemma apply_hist_op_mono (st : SessionState) (op : HistOp) :
    st.message_history.length ≤ (apply_hist_op st op).message_history.length := by
  cases op with
  | add_message u a =>
      simp [apply_hist_op, add_message_to_history]
  | clarification_request ui ic sid =>
      simp [apply_hist_op, handle_clarification_request,
        add_message_to_history]
  | clarification_response ui =>
      rw [apply_hist_op]
      cases hp : st.pending_clarification with
      | none => simp [handle_clarification_response, hp]
      | some pending =>
          simp [handle_clarification_response, hp, add_message_to_history]
  | seed_merge seed =>
      rw [apply_hist_op]
      have hlook : List.lookup "s" [("s", st)] = some st := by
        simp [List.lookup]
      simp only [get_or_create_session, hlook]
      split
      · rename_i h
        rw [Bool.and_eq_true] at h
        cases hml : st.message_history with
        | nil => exact Nat.zero_le _
        | cons a l => rw [hml] at h; simp at h
      · simp
  | store_result k out =>
      simp [apply_hist_op, store_query_result]
  | evict n =>
      simp [apply_hist_op, clear_old_results_in]

/-- C3 amended: across every sequence of history-touching pipeline
operations *other than* compaction (and explicit reset), a session's
history length never decreases; compaction (`summarize_if_needed`,
exercised by the counterexample) is the one pipeline step that shortens
it. -/
theorem history_monotone_without_compaction (ops : List HistOp)
    (st : SessionState) :
    st.message_history.length ≤
      (ops.foldl apply_hist_op st).message_history.length := by
  induction ops generalizing st with
  | nil => simp
  | cons op ops ih =>
      calc st.message_history.length
          ≤ (apply_hist_op st op).message_history.length :=
            apply_hist_op_mono st op
        _ ≤ ((op :: ops).foldl apply_hist_op st).message_history.length := by
            rw [List.foldl_cons]
            exact ih (apply_hist_op st op)

/-! ## C2 — the clarification round-trip -/

/-- A plan for a pure general question: no data, no plot. -/
def plan_general : ExecutionPlan :=
  { intent_type := "general_question"
    requires_clarification := false
    clarification_question := none
    reasoning := "small talk"
    requires_plot := false
    plot_type := none
    use_cached_data := false
    cached_data_key := none
    sql_query := none
    explanation := "answer directly" }

def caps_general : Capabilities :=
  { caps_trivial with planner := fun _ _ => PlanOrClarification.plan plan_general }

/-- The pending clarification stored after turn 1 in the C2 scenario. -/
def pending_turn1 : PendingClarification :=
  { original_message := "show sales"
    intent :=
      { intent_type := "database_query"
        requires_clarification := true
        clarification_question := some "Which table?"
        reasoning := "ambiguous" } }

/-- C2 counterexample: a session is `AwaitingClarification`
(`pending_clarification` is stored), and the next inbound message is
`"the iris table"`.  The pipeline feeds the *raw* new text — not the
combined `"show sales\n\n[Clarification response]: the iris table"` —
to the planning stage, and the stored pending clarification is still
present, uncleared, after the turn: `chat` never consults or consumes
it. -/
theorem clarification_not_consumed_cex :
    (chat caps_general (fun _ => false)
        [("s", ⟨[], [], some pending_turn1⟩)]
        ⟨"the iris table", some "s", none⟩ none).planner_input
      = some "the iris table" ∧
    ("the iris table" : String)
      ≠ "show sales\n\n[Clarification response]: the iris table" ∧
    ((chat caps_general (fun _ => false)
        [("s", ⟨[], [], some pending_turn1⟩)]
        ⟨"the iris table", some "s", none⟩ none).store.lookup "s").map
      SessionState.pending_clarification = some (some pending_turn1) ∧
    (chat caps_general (fun _ => false)
        [("s", ⟨[], [], some pending_turn1⟩)]
        ⟨"the iris table", some "s", none⟩ none).response.isSome = true := by
  decide

/-- C2 amended: the combine-and-clear behaviour exists only in
`ClarificationHandler.handle_clarification_response`: when the pending
clarification is present, that handler returns the combined input
`"<original>\n\n[Clarification response]: <new text>"` together with the
stored intent, appends the raw user turn, and clears the pending slot —
but `OrchestratorAgent.chat` never invokes it (the counterexample shows
the pipeline passing the raw text to planning and leaving the slot
set). -/
theorem handle_clarification_response_spec (user_input : UserMessage)
    (st : SessionState) (pending : PendingClarification)
    (h : st.pending_clarification = some pending) :
    handle_clarification_response user_input st =
      some (pending.original_message ++ "\n\n[Clarification response]: "
          ++ user_input.content,
        pending.intent,
        { st with
            message_history := st.message_history
              ++ [ModelMessage.userMsg user_input.content]
            pending_clarification := none }) := by
  rw [handle_clarification_response, h]
  simp [add_message_to_history]

theorem handle_clarification_response_spec_witness :
    handle_clarification_response ⟨"the iris table", some "s", none⟩
        ⟨[], [], some pending_turn1⟩ =
      some ("show sales\n\n[Clarification response]: the iris table",
        pending_turn1.intent,
        ⟨[ModelMessage.userMsg "the iris table"], [], none⟩) := by
  rw [handle_clarification_response_spec ⟨"the iris table", some "s", none⟩
    ⟨[], [], some pending_turn1⟩ pending_turn1 rfl]
  rfl

/-! ## C10 — history growth on a clarification turn -/

/-- C10: when the planner returns a clarification question, the turn
appends exactly three entries to the session's history — the user's
message twice (once at `orchestrator.py` line 508 before the planner
runs, once inside `handle_clarification_request`) followed by the
clarification-question turn — and stores the pending clarification. -/
theorem clarification_turn_appends_three (caps : Capabilities)
    (store : Store) (user_input : UserMessage) (st : SessionState)
    (question : String)
    (hst : store.lookup (the_session_id user_input) = some st)
    (hlen : st.message_history.length ≤ MAX_MESSAGES)
    (hplanner : caps.planner user_input.content
        (st.message_history ++ [ModelMessage.userMsg user_input.content])
      = PlanOrClarification.clarification question)
    (hq : question ≠ "") :
    ((chat caps (fun _ => false) store user_input none).store.lookup
        (the_session_id user_input)).map SessionState.message_history
      = some (st.message_history
          ++ [ModelMessage.userMsg user_input.content,
              ModelMessage.userMsg user_input.content,
              ModelMessage.assistantMsg question]) ∧
    ((chat caps (fun _ => false) store user_input none).store.lookup
        (the_session_id user_input)).map SessionState.pending_clarification
      = some (some
          { original_message := user_input.content
            intent :=
              { intent_type := "database_query"
                requires_clarification := true
                clarification_question := some question
                reasoning := "User question requires clarification before execution plan can be created." } }) ∧
    (chat caps (fun _ => false) store user_input none).response
      = some
          { message := question
            requires_followup := true
            metadata := some
              [("intent_type", MetaVal.str "database_query"),
               ("requires_clarification", MetaVal.bool true),
               ("session_id",
                 MetaVal.str (the_session_id user_input))] } := by
  refine ⟨?_, ?_, ?_⟩ <;>
    simp [chat, prepare_session_and_history, get_or_create_session, hst,
      summarize_if_needed, hlen, add_message_to_history, hplanner,
      handle_clarification_request, str_or_default, hq,
      lookup_dict_insert]

def caps_clarifying : Capabilities :=
  { caps_trivial with planner := fun _ _ =>
      PlanOrClarification.clarification "Which table do you mean?" }

theorem clarification_turn_appends_three_witness :
    ((chat caps_clarifying (fun _ => false) [("s", ⟨[], [], none⟩)]
        ⟨"show sales", some "s", none⟩ none).store.lookup
        (the_session_id ⟨"show sales", some "s", none⟩)).map
      SessionState.message_history
      = some [ModelMessage.userMsg "show sales",
              ModelMessage.userMsg "show sales",
              ModelMessage.assistantMsg "Which table do you mean?"] :=
  (clarification_turn_appends_three caps_clarifying
    [("s", ⟨[], [], none⟩)] ⟨"show sales", some "s", none⟩ ⟨[], [], none⟩
    "Which table do you mean?" rfl (by decide) rfl (by decide)).1

/-! ## C1 — cancellation between Planning and Executing -/

/-- C1 counterexample: the token becomes set right after the planning
stage (polls 0-3 observe it unset, poll 4 — line 188, directly after the
planner returns — observes it set).  No fetch is invoked, but the
session history is not left unchanged: the user's turn was already
appended (line 508) before planning, so history gained exactly one
entry, with no terminal response attached. -/
theorem chat_cancel_appends_user_turn_cex :
    (chat caps_general (fun k => decide (4 ≤ k))
        [("s", ⟨[], [], none⟩)] ⟨"show data", some "s", none⟩
        none).response = none ∧
    (chat caps_general (fun k => decide (4 ≤ k))
        [("s", ⟨[], [], none⟩)] ⟨"show data", some "s", none⟩
        none).fetch_calls = 0 ∧
    ((chat caps_general (fun k => decide (4 ≤ k))
        [("s", ⟨[], [], none⟩)] ⟨"show data", some "s", none⟩
        none).store.lookup "s").map SessionState.message_history
      = some [ModelMessage.userMsg "show data"] ∧
    [ModelMessage.userMsg "show data"] ≠ ([] : List ModelMessage) := by
  decide

/-- C1 amended: a token set immediately after Planning and before
Executing means no fetch is invoked and the turn is aborted, but the
session history has already gained exactly one new entry — the user's
turn, appended before the planner ran — with no assistant or terminal
response after it. -/
theorem chat_cancel_after_planning (caps : Capabilities) (store : Store)
    (user_input : UserMessage) (st : SessionState)
    (hst : store.lookup (the_session_id user_input) = some st) :
    (chat caps (fun k => decide (4 ≤ k)) store user_input none).response
      = none ∧
    (chat caps (fun k => decide (4 ≤ k)) store user_input
        none).fetch_calls = 0 ∧
    ((chat caps (fun k => decide (4 ≤ k)) store user_input
        none).store.lookup (the_session_id user_input)).map
      SessionState.message_history
      = some (summarize_if_needed caps.summarizer st.message_history
          ++ [ModelMessage.userMsg user_input.content]) := by
  refine ⟨?_, ?_, ?_⟩ <;>
    simp [chat, prepare_session_and_history, get_or_create_session, hst,
      add_message_to_history, lookup_dict_insert]

theorem chat_cancel_after_planning_witness :
    ((chat caps_trivial (fun k => decide (4 ≤ k))
        [("s", ⟨[], [], none⟩)] ⟨"show data", some "s", none⟩
        none).store.lookup
        (the_session_id ⟨"show data", some "s", none⟩)).map
      SessionState.message_history
      = some (summarize_if_needed caps_trivial.summarizer []
          ++ [ModelMessage.userMsg "show data"]) :=
  (chat_cancel_after_planning caps_trivial [("s", ⟨[], [], none⟩)]
    ⟨"show data", some "s", none⟩ ⟨[], [], none⟩ rfl).2.2

end DAAgent
